import Mathlib

/-!
# Verification of the bikeworld inventory service (src/server.js)

Shallow embedding of the Express handlers in `src/server.js`:

* the in-memory bike inventory (`bikeInventory`, a JS array) is a `List Bike`;
* JS field values that the claims exercise (strings and numbers) are `JVal`;
  a field absent from the request body is `Option.none` (JS `undefined`);
* each route handler becomes a pure function from the current inventory and
  the request data to the HTTP response together with the new inventory;
* `parseInt` on the `:index` path segment may produce `NaN`, modelled by
  `ParsedIndex.nan`, with the JS comparison and `Array.prototype.splice`
  coercion semantics spelled out (`NaN < 0` and `NaN >= n` are both false;
  `splice` converts `NaN` to `0`);
* the M-Pesa payment initiation (`POST /api/mpesa-pay`) builds a timestamp
  from `new Date().toISOString()` and a base64 password; the ISO string,
  the digit filter, `slice(0, 14)` and `Buffer.toString('base64')` are
  embedded character-by-character / byte-by-byte.
-/

/-- A JavaScript value as far as the claims need: a string or a number.
Request-body fields are `Option JVal`, `none` standing for `undefined`. -/
inductive JVal where
  | str : String → JVal
  | num : Int → JVal
  deriving DecidableEq, Repr

/-- JS truthiness on the modelled values: the empty string and the number 0
are falsy, everything else is truthy. -/
def JVal.truthy : JVal → Bool
  | .str s => !(s == "")
  | .num n => !(n == 0)

/-- JS truthiness of a possibly-absent field: `undefined` is falsy. -/
def jsTruthy : Option JVal → Bool
  | none => false
  | some v => v.truthy

/-- A bike listing as submitted to `POST /api/add-bike`: the handler reads
`req.body` and checks the four fields `name`, `price`, `image`, `desc`. -/
structure Bike where
  name : Option JVal
  price : Option JVal
  desc : Option JVal
  image : Option JVal
  deriving DecidableEq, Repr

/-- Response of the add-bike route (status plus the JSON body fields it
can carry). -/
structure AddResp where
  status : Nat
  error : Option String := none
  message : Option String := none
  deriving DecidableEq, Repr

/-- Handler of `POST /api/add-bike` (src/server.js:112-129): reject with
400 `'All fields are required'` when `!name || !price || !image || !desc`,
otherwise push onto `bikeInventory` and answer 201. -/
def addBike (inv : List Bike) (b : Bike) : AddResp × List Bike :=
  if !jsTruthy b.name || !jsTruthy b.price || !jsTruthy b.image || !jsTruthy b.desc then
    ({ status := 400, error := some "All fields are required" }, inv)
  else
    ({ status := 201, message := some "Bike saved successfully!" }, inv ++ [b])

/-- Handler of `GET /api/bikes` (src/server.js:132-134): returns the inventory as is. -/
def listAll (inv : List Bike) : List Bike := inv

/-- Result of `parseInt` on the `:index` path segment: an integer, or `NaN`
when the segment does not start with a parseable integer. -/
inductive ParsedIndex where
  | int : Int → ParsedIndex
  | nan : ParsedIndex
  deriving DecidableEq, Repr

/-- JS `index < 0`: false when `index` is `NaN`. -/
def jsLtZero : ParsedIndex → Bool
  | .int i => i < 0
  | .nan => false

/-- JS `index >= len`: false when `index` is `NaN`. -/
def jsGeLen (p : ParsedIndex) (len : Nat) : Bool :=
  match p with
  | .int i => (len : Int) ≤ i
  | .nan => false

/-- The start position actually used by `Array.prototype.splice(index, 1)`:
`ToIntegerOrInfinity(NaN) = 0`; a negative start counts from the end,
clamped at 0; a start beyond the length is clamped to the length. -/
def spliceStart (len : Nat) : ParsedIndex → Nat
  | .nan => 0
  | .int i => if i < 0 then (max ((len : Int) + i) 0).toNat else min i.toNat len

/-- Response of the two delete routes (status plus every JSON body field
either route can carry; `none` = field absent from the body, as
`JSON.stringify` drops `undefined` values). -/
structure DelResp where
  status : Nat
  error : Option String := none
  message : Option String := none
  bike : Option Bike := none
  index : Option ParsedIndex := none
  inventoryLength : Option Nat := none
  deriving DecidableEq, Repr

/-- Handler of `DELETE /api/bikes/:index` (src/server.js:137-157): 404 echoing the
index and the inventory length when `index < 0 || index >= length`
(both comparisons false for `NaN`), otherwise
`splice(index, 1)` and 200 with the removed element (`deletedBike[0]`,
`undefined` — here `none` — when splice removed nothing). -/
def deleteByIndex (inv : List Bike) (idx : ParsedIndex) : DelResp × List Bike :=
  if jsLtZero idx || jsGeLen idx inv.length then
    ({ status := 404, error := some "Bike not found", index := some idx,
       inventoryLength := some inv.length }, inv)
  else
    let s := spliceStart inv.length idx
    ({ status := 200, message := some "Bike deleted successfully", bike := inv[s]? },
     inv.take s ++ inv.drop (s + 1))

/-- The predicate of `bikeInventory.findIndex(bike => bike.name === bikeName)`:
strict equality of the `name` field with the decoded string (`undefined` or a
number on the left is never `===` a string). -/
def nameMatches (nm : String) (b : Bike) : Bool := b.name == some (JVal.str nm)

/-- Handler of `DELETE /api/bikes/name/:name` (src/server.js:160-180): `nm` is the
`decodeURIComponent`-decoded name segment; `findIndex` locates the first
strict-equality match; 404 with the bare error body when there is none,
otherwise `splice(bikeIndex, 1)` and 200 with the removed element. -/
def deleteByName (inv : List Bike) (nm : String) : DelResp × List Bike :=
  match inv.findIdx? (nameMatches nm) with
  | none => ({ status := 404, error := some "Bike not found" }, inv)
  | some i =>
    ({ status := 200, message := some "Bike deleted successfully", bike := inv[i]? },
     inv.take i ++ inv.drop (i + 1))

/-- The decimal digit character for `n < 10` (code point 48 + n). -/
def digitChar (n : Nat) : Char := Char.ofNat (48 + n)

/-- Decimal rendering of a natural number as JS produces it (most
significant digit first, no sign, no padding). -/
def natChars (n : Nat) : List Char :=
  if n < 10 then [digitChar n]
  else natChars (n / 10) ++ [digitChar (n % 10)]
decreasing_by exact Nat.div_lt_self (by omega) (by omega)

/-- Zero-left-padding to width `w`, as `Date.prototype.toISOString` pads
each date component. -/
def padTo (w n : Nat) : List Char :=
  List.replicate (w - (natChars n).length) '0' ++ natChars n

/-- The components that `toISOString` renders (UTC; `month` is the 1-based
display month, `ms` the milliseconds). -/
structure DateParts where
  year : Nat
  month : Nat
  day : Nat
  hour : Nat
  minute : Nat
  second : Nat
  ms : Nat
  deriving DecidableEq, Repr

/-- Rendering of `new Date().toISOString()` for years 0-9999:
`YYYY-MM-DDTHH:MM:SS.mmmZ`, each component zero-padded. -/
def toISOChars (d : DateParts) : List Char :=
  padTo 4 d.year ++ ['-'] ++ padTo 2 d.month ++ ['-'] ++ padTo 2 d.day ++ ['T'] ++
  padTo 2 d.hour ++ [':'] ++ padTo 2 d.minute ++ [':'] ++ padTo 2 d.second ++ ['.'] ++
  padTo 3 d.ms ++ ['Z']

/-- src/server.js:85 — `new Date().toISOString().replace(/[^0-9]/g, '').slice(0, 14)`:
drop every non-digit character, keep the first 14. -/
def mkTimestamp (d : DateParts) : List Char :=
  ((toISOChars d).filter Char.isDigit).take 14

/-- The base64 alphabet, in order. -/
def b64Chars : List Char :=
  "ABCDEFGHIJKLMNOPQRSTUVWXYZabcdefghijklmnopqrstuvwxyz0123456789+/".data

/-- The base64 digit for a 6-bit value. -/
def b64Char (n : Nat) : Char := b64Chars.getD n 'A'

/-- The 6-bit value of a base64 digit. -/
def b64Val (c : Char) : Nat := b64Chars.indexOf c

/-- Embeds `Buffer.prototype.toString('base64')`: standard base64 with `=` padding,
over a byte list. -/
def base64Encode : List Nat → List Char
  | [] => []
  | [b1] => [b64Char (b1 / 4), b64Char (b1 % 4 * 16), '=', '=']
  | [b1, b2] =>
    [b64Char (b1 / 4), b64Char (b1 % 4 * 16 + b2 / 16), b64Char (b2 % 16 * 4), '=']
  | b1 :: b2 :: b3 :: rest =>
    [b64Char (b1 / 4), b64Char (b1 % 4 * 16 + b2 / 16), b64Char (b2 % 16 * 4 + b3 / 64),
     b64Char (b3 % 64)] ++ base64Encode rest

/-- Base64 decoding, inverse of `base64Encode` (used only to state that the
password is the encoding of exactly the concatenated credential string). -/
def base64Decode : List Char → List Nat
  | c1 :: c2 :: c3 :: c4 :: rest =>
    if c3 == '=' then [b64Val c1 * 4 + b64Val c2 / 16]
    else if c4 == '=' then
      [b64Val c1 * 4 + b64Val c2 / 16, b64Val c2 % 16 * 16 + b64Val c3 / 4]
    else
      [b64Val c1 * 4 + b64Val c2 / 16, b64Val c2 % 16 * 16 + b64Val c3 / 4,
       b64Val c3 % 4 * 64 + b64Val c4] ++ base64Decode rest
  | _ => []

/-- Embeds `Buffer.from(s)` for the ASCII strings involved: one byte per character,
the character's code point. -/
def strBytes (s : List Char) : List Nat := s.map Char.toNat

/-- src/server.js:11 — the M-Pesa business short code. -/
def businessShortCode : List Char := "174379".data

/-- src/server.js:12 — the M-Pesa passkey placeholder. -/
def passkey : List Char := "your_passkey".data

/-- The request body of `POST /api/mpesa-pay` (the two fields the handler
reads). -/
structure PayBody where
  phone : Option JVal
  amount : Option JVal
  deriving DecidableEq, Repr

/-- src/server.js:83 — `req.body.amount || 13000`: the fallback is used
whenever `amount` is falsy (absent, 0, or the empty string). -/
def jsOrAmount : Option JVal → JVal
  | some v => if v.truthy then v else JVal.num 13000
  | none => JVal.num 13000

/-- The outbound STK-push request body (src/server.js:88-100), field by
field. -/
structure StkRequest where
  shortCode : List Char
  password : List Char
  timestamp : List Char
  transactionType : List Char
  amount : JVal
  partyA : Option JVal
  partyB : List Char
  phoneNumber : Option JVal
  callBackURL : List Char
  accountReference : List Char
  transactionDesc : List Char
  deriving DecidableEq, Repr

/-- Handler of `POST /api/mpesa-pay` (src/server.js:78-109), the payment-initiation
step: the `date` timestamp, the base64 password over
`businessShortCode + passkey + date`, and the fixed-shape request body. -/
def initiatePayment (body : PayBody) (d : DateParts) : StkRequest :=
  let date := mkTimestamp d
  { shortCode := businessShortCode
    password := base64Encode (strBytes (businessShortCode ++ passkey ++ date))
    timestamp := date
    transactionType := "CustomerPayBillOnline".data
    amount := jsOrAmount body.amount
    partyA := body.phone
    partyB := businessShortCode
    phoneNumber := body.phone
    callBackURL := "https://yourdomain.com/api/callback".data
    accountReference := "BikeHub".data
    transactionDesc := "Bike Hub Payment".data }

/-- An uploaded file as multer sees it: declared content type and byte
size. -/
structure UploadFile where
  mimetype : List Char
  size : Nat
  deriving DecidableEq, Repr

/-- src/server.js:36 — `file.mimetype.startsWith('image/')`. -/
def mimetypeIsImage (f : UploadFile) : Bool := "image/".data.isPrefixOf f.mimetype

/-- src/server.js:43 — the 5 MiB `fileSize` limit. -/
def fileSizeLimit : Nat := 5 * 1024 * 1024

/-- Outcome of `POST /api/upload-image` as observed by the client and the
upload directory: the HTTP status and whether a file remains stored. -/
structure UploadResult where
  status : Nat
  fileStored : Bool
  errorBody : Option String
  deriving DecidableEq, Repr

/-- Handler of `POST /api/upload-image` (src/server.js:33-66) composed with the multer
middleware: no file → the handler's own 400; `fileFilter` rejection
(non-image mimetype) → the `Error` goes to `next`, and with no error
middleware registered Express's default error handler answers 500 and the
file is never written; `fileSize` over the limit → multer aborts, removes
the partial file (disk storage `_removeFile`) and the resulting
`MulterError` likewise reaches the default handler as a 500; otherwise the
file is stored and the handler answers 200 with the image URL. -/
def uploadImage (file : Option UploadFile) : UploadResult :=
  match file with
  | none => { status := 400, fileStored := false, errorBody := some "No image file provided" }
  | some f =>
    if !mimetypeIsImage f then
      { status := 500, fileStored := false, errorBody := some "Only image files are allowed" }
    else if fileSizeLimit < f.size then
      { status := 500, fileStored := false, errorBody := some "File too large" }
    else
      { status := 200, fileStored := true, errorBody := none }

/-! ## Helper lemmas -/

theorem jsTruthy_none : jsTruthy none = false := rfl

theorem nameMatches_eq_false_iff (nm : String) (b : Bike) :
    nameMatches nm b = false ↔ b.name ≠ some (JVal.str nm) := by
  simp [nameMatches]

theorem jsGeLen_int_lt_false (inv : List Bike) (i : Nat) (h : i < inv.length) :
    jsGeLen (.int i) inv.length = false := by
  simp [jsGeLen]; exact_mod_cast h

theorem spliceStart_int_le (len i : Nat) (h : i ≤ len) :
    spliceStart len (.int i) = i := by
  simp only [spliceStart]
  rw [if_neg (by exact Int.not_lt.mpr (Int.natCast_nonneg i))]
  simp [Int.toNat_natCast]
  omega

theorem deleteByIndex_int_ge (inv : List Bike) (i : Nat) (h : inv.length ≤ i) :
    (deleteByIndex inv (.int i)).1.status = 404 := by
  have hb : jsGeLen (.int i) inv.length = true := by
    simp [jsGeLen]; exact_mod_cast h
  simp [deleteByIndex, hb]

theorem deleteByIndex_int_in_bounds (inv : List Bike) (i : Nat) (h : i < inv.length) :
    deleteByIndex inv (.int i) =
      ({ status := 200, message := some "Bike deleted successfully", bike := inv[i]? },
       inv.take i ++ inv.drop (i + 1)) := by
  have hnotlt : jsLtZero (.int i) = false := by simp [jsLtZero]
  have hnotge := jsGeLen_int_lt_false inv i h
  have hs := spliceStart_int_le inv.length i h.le
  simp [deleteByIndex, hnotlt, hnotge, hs]

/-! ## C1 -/

/-- The counterexample submission for C1: all four fields present, but the
price is the (falsy) number 0. -/
def c1Bike : Bike :=
  { name := some (JVal.str "Trek 100"), price := some (JVal.num 0),
    desc := some (JVal.str "road bike"), image := some (JVal.str "/uploads/a.jpg") }

/-- C1 (counterexample): a submission with name, price, desc and image all
present is not necessarily accepted — with price 0 the create operation
answers 400, not 201, and `listAll` is unchanged. -/
theorem addBike_present_fields_cex :
    c1Bike.name.isSome = true ∧ c1Bike.price.isSome = true ∧
    c1Bike.desc.isSome = true ∧ c1Bike.image.isSome = true ∧
    (addBike [] c1Bike).1.status = 400 ∧ (addBike [] c1Bike).1.status ≠ 201 ∧
    listAll (addBike [] c1Bike).2 = listAll [] := by decide

/-- C1 (amended): for every submission whose four fields are present and
truthy (non-empty strings, non-zero price), the create operation answers
201 and `listAll` afterwards is the previous sequence with exactly the
submitted listing appended. -/
theorem addBike_truthy_fields_appends (inv : List Bike) (b : Bike)
    (hn : jsTruthy b.name = true) (hp : jsTruthy b.price = true)
    (hd : jsTruthy b.desc = true) (hi : jsTruthy b.image = true) :
    (addBike inv b).1.status = 201 ∧
    listAll (addBike inv b).2 = listAll inv ++ [b] ∧
    (listAll (addBike inv b).2).length = (listAll inv).length + 1 := by
  simp [addBike, listAll, hn, hp, hd, hi]

/-- C1 (witness): the amended theorem at a concrete truthy submission. -/
theorem addBike_truthy_fields_appends_witness :
    (addBike [] { name := some (JVal.str "Trek 100"), price := some (JVal.num 500),
                  desc := some (JVal.str "road bike"),
                  image := some (JVal.str "/uploads/a.jpg") }).1.status = 201 :=
  (addBike_truthy_fields_appends [] _ (by decide) (by decide) (by decide) (by decide)).1

/-! ## C2 -/

/-- C2: a submission missing any of the four required fields is rejected
with 400 `'All fields are required'` and the inventory is unchanged. -/
theorem addBike_missing_field_rejected (inv : List Bike) (b : Bike)
    (h : b.name = none ∨ b.price = none ∨ b.desc = none ∨ b.image = none) :
    (addBike inv b).1.status = 400 ∧
    (addBike inv b).1.error = some "All fields are required" ∧
    (addBike inv b).2 = inv := by
  rcases h with h | h | h | h <;> simp [addBike, jsTruthy, h]

/-- C2 (witness): the theorem at a submission with no image field. -/
theorem addBike_missing_field_rejected_witness :
    (addBike [] { name := some (JVal.str "Trek 100"), price := some (JVal.num 500),
                  desc := some (JVal.str "road bike"), image := none }).1.status = 400 ∧
    (addBike [] { name := some (JVal.str "Trek 100"), price := some (JVal.num 500),
                  desc := some (JVal.str "road bike"), image := none }).1.error =
      some "All fields are required" ∧
    (addBike [] { name := some (JVal.str "Trek 100"), price := some (JVal.num 500),
                  desc := some (JVal.str "road bike"), image := none }).2 = [] :=
  addBike_missing_field_rejected [] _ (Or.inr (Or.inr (Or.inr rfl)))

/-! ## C10 -/

/-- C10: a submission with all four fields present but at least one falsy
(price 0, or an empty-string name/desc/image) is rejected with 400
`'All fields are required'` and the inventory is unchanged. -/
theorem addBike_falsy_field_rejected (inv : List Bike) (b : Bike)
    (hpres : b.name.isSome = true ∧ b.price.isSome = true ∧
             b.desc.isSome = true ∧ b.image.isSome = true)
    (hfalsy : jsTruthy b.name = false ∨ jsTruthy b.price = false ∨
              jsTruthy b.desc = false ∨ jsTruthy b.image = false) :
    (addBike inv b).1.status = 400 ∧
    (addBike inv b).1.error = some "All fields are required" ∧
    (addBike inv b).2 = inv := by
  rcases hfalsy with h | h | h | h <;> simp [addBike, h]

/-- C10 (witness): the theorem at a submission with price 0. -/
theorem addBike_falsy_field_rejected_witness :
    (addBike [] { name := some (JVal.str "BMX"), price := some (JVal.num 0),
                  desc := some (JVal.str "d"), image := some (JVal.str "i") }).1.status = 400 ∧
    (addBike [] { name := some (JVal.str "BMX"), price := some (JVal.num 0),
                  desc := some (JVal.str "d"), image := some (JVal.str "i") }).1.error =
      some "All fields are required" ∧
    (addBike [] { name := some (JVal.str "BMX"), price := some (JVal.num 0),
                  desc := some (JVal.str "d"), image := some (JVal.str "i") }).2 = [] :=
  addBike_falsy_field_rejected [] _ (by decide) (by decide)

/-! ## C9 -/

/-- C9: when `parseInt` yields `NaN`, both bounds comparisons are false, so
on a non-empty inventory the handler does not answer 404: it removes and
returns the element at position 0. -/
theorem deleteByIndex_nan_deletes_head (inv : List Bike) (h : inv ≠ []) :
    (deleteByIndex inv .nan).1.status = 200 ∧
    (deleteByIndex inv .nan).1.status ≠ 404 ∧
    (deleteByIndex inv .nan).1.bike = some (inv.head h) ∧
    (deleteByIndex inv .nan).2 = inv.tail := by
  obtain ⟨a, t, rfl⟩ := List.exists_cons_of_ne_nil h
  simp [deleteByIndex, jsLtZero, jsGeLen, spliceStart]

/-- C9 (witness): the theorem at a concrete two-element inventory. -/
theorem deleteByIndex_nan_deletes_head_witness :
    (deleteByIndex [c1Bike, c1Bike] .nan).1.status = 200 ∧
    (deleteByIndex [c1Bike, c1Bike] .nan).1.status ≠ 404 ∧
    (deleteByIndex [c1Bike, c1Bike] .nan).1.bike =
      some ([c1Bike, c1Bike].head (by decide)) ∧
    (deleteByIndex [c1Bike, c1Bike] .nan).2 = [c1Bike] :=
  deleteByIndex_nan_deletes_head [c1Bike, c1Bike] (by decide)

/-! ## C5 -/

/-- C5: a delete-by-index request with a numeric index out of bounds
(negative or at least the length) answers 404 with a body carrying the
error string, the requested index and the inventory length, and the
inventory is unchanged. -/
theorem deleteByIndex_out_of_bounds (inv : List Bike) (i : Int)
    (h : i < 0 ∨ (inv.length : Int) ≤ i) :
    deleteByIndex inv (.int i) =
      ({ status := 404, error := some "Bike not found", index := some (.int i),
         inventoryLength := some inv.length }, inv) := by
  rcases h with h | h <;> simp [deleteByIndex, jsLtZero, jsGeLen, h]

/-- C5 (witness): index 99 on a 2-element inventory gives 404 with
index 99 and inventoryLength 2. -/
theorem deleteByIndex_out_of_bounds_witness :
    deleteByIndex [c1Bike, c1Bike] (.int 99) =
      ({ status := 404, error := some "Bike not found", index := some (.int 99),
         inventoryLength := some 2 }, [c1Bike, c1Bike]) :=
  deleteByIndex_out_of_bounds [c1Bike, c1Bike] 99 (Or.inr (by decide))

/-! ## C3 -/

/-- A concrete listing used in the C3 counterexample. -/
def bikeA : Bike :=
  { name := some (JVal.str "Road A"), price := some (JVal.num 500),
    desc := some (JVal.str "a"), image := some (JVal.str "/uploads/a.jpg") }

/-- A second concrete listing used in the C3 counterexample. -/
def bikeB : Bike :=
  { name := some (JVal.str "Road B"), price := some (JVal.num 700),
    desc := some (JVal.str "b"), image := some (JVal.str "/uploads/b.jpg") }

/-- C3 (counterexample): on the inventory `[bikeA, bikeB]`, deleting index 0
returns `bikeA` and leaves `[bikeB]`; but a second delete with the same
index 0 does NOT fail as not-found — it answers 200 and removes `bikeB`,
the element that shifted into position 0. -/
theorem deleteByIndex_second_delete_cex :
    (deleteByIndex [bikeA, bikeB] (.int 0)).1.status = 200 ∧
    (deleteByIndex [bikeA, bikeB] (.int 0)).1.bike = some bikeA ∧
    (deleteByIndex [bikeA, bikeB] (.int 0)).2 = [bikeB] ∧
    (deleteByIndex [bikeB] (.int 0)).1.status = 200 ∧
    (deleteByIndex [bikeB] (.int 0)).1.status ≠ 404 ∧
    (deleteByIndex [bikeB] (.int 0)).1.bike = some bikeB := by decide

/-- C3 (amended): for every inventory and every index `0 ≤ i < length`,
delete-by-index returns exactly the listing at position `i` and removes it,
so `listAll` afterwards has exactly one fewer element; a second delete with
the same index value fails as not-found precisely when `i` was the last
position (`i = length - 1`); when `i + 1 < length` the second delete
instead succeeds and removes the element that shifted into position `i`. -/
theorem deleteByIndex_valid_then_repeat (inv : List Bike) (i : Nat) (h : i < inv.length) :
    (deleteByIndex inv (.int i)).1.status = 200 ∧
    (deleteByIndex inv (.int i)).1.bike = some (inv.get ⟨i, h⟩) ∧
    (deleteByIndex inv (.int i)).2 = inv.take i ++ inv.drop (i + 1) ∧
    (listAll (deleteByIndex inv (.int i)).2).length = (listAll inv).length - 1 ∧
    ((deleteByIndex (deleteByIndex inv (.int i)).2 (.int i)).1.status = 404 ↔
      i = inv.length - 1) ∧
    (i + 1 < inv.length →
      (deleteByIndex (deleteByIndex inv (.int i)).2 (.int i)).1.status = 200 ∧
      (deleteByIndex (deleteByIndex inv (.int i)).2 (.int i)).1.bike =
        (deleteByIndex inv (.int i)).2[i]?) := by
  have hfst := deleteByIndex_int_in_bounds inv i h
  have hlen2 : (inv.take i ++ inv.drop (i + 1)).length = inv.length - 1 := by
    simp [List.length_take, List.length_drop]; omega
  refine ⟨by simp [hfst], ?_, by simp [hfst], by simp [hfst, listAll, hlen2], ?_, ?_⟩
  · simp [hfst, List.getElem?_eq_getElem h]
  · rw [hfst]
    constructor
    · intro h404
      by_contra hne
      have hlt : i < (inv.take i ++ inv.drop (i + 1)).length := by rw [hlen2]; omega
      rw [deleteByIndex_int_in_bounds _ i hlt] at h404
      simp at h404
    · intro heq
      apply deleteByIndex_int_ge
      rw [hlen2]; omega
  · intro hi2
    rw [hfst]
    have h2 : i < (inv.take i ++ inv.drop (i + 1)).length := by rw [hlen2]; omega
    rw [deleteByIndex_int_in_bounds _ i h2]
    exact ⟨rfl, rfl⟩

/-- C3 (witness): the amended theorem at index 1 of a two-element
inventory (the last position, so the second delete is a 404). -/
theorem deleteByIndex_valid_then_repeat_witness :
    (deleteByIndex [bikeA, bikeB] (.int 1)).1.status = 200 ∧
    (deleteByIndex [bikeA, bikeB] (.int 1)).1.bike =
      some ([bikeA, bikeB].get ⟨1, by decide⟩) ∧
    ((deleteByIndex (deleteByIndex [bikeA, bikeB] (.int 1)).2 (.int 1)).1.status = 404 ↔
      (1 : Nat) = 2 - 1) :=
  let t := deleteByIndex_valid_then_repeat [bikeA, bikeB] 1 (by decide)
  ⟨t.1, t.2.1, t.2.2.2.2.1⟩

/-! ## C6 -/

/-- C6 (counterexample): the not-found response of delete-by-name is a 404
whose body is the bare error string — no name, index, length or any other
identifying context is echoed back. -/
theorem deleteByName_not_found_bare_cex :
    (deleteByName [] "Ghost").1.status = 404 ∧
    (deleteByName [] "Ghost").1.error = some "Bike not found" ∧
    (deleteByName [] "Ghost").1.index = none ∧
    (deleteByName [] "Ghost").1.inventoryLength = none ∧
    (deleteByName [] "Ghost").1.bike = none ∧
    (deleteByName [] "Ghost").1.message = none := by decide

/-- C6 (amended): delete-by-index not-found responses are 404s echoing the
requested index and the inventory length; delete-by-name not-found
responses are 404s carrying only the bare error string, with no
identifying context. -/
theorem delete_not_found_bodies (inv : List Bike) (i : Int) (nm : String)
    (hidx : i < 0 ∨ (inv.length : Int) ≤ i)
    (hnm : ∀ b ∈ inv, b.name ≠ some (JVal.str nm)) :
    (deleteByIndex inv (.int i)).1 =
      { status := 404, error := some "Bike not found", index := some (.int i),
        inventoryLength := some inv.length } ∧
    (deleteByName inv nm).1 = { status := 404, error := some "Bike not found" } := by
  constructor
  · rcases hidx with h | h <;> simp [deleteByIndex, jsLtZero, jsGeLen, h]
  · have hfind : inv.findIdx? (nameMatches nm) = none := by
      rw [List.findIdx?_eq_none_iff]
      intro b hb
      rw [nameMatches_eq_false_iff]
      exact hnm b hb
    simp [deleteByName, hfind]

/-- C6 (witness): the amended theorem on a one-element inventory, index 7,
name "Ghost". -/
theorem delete_not_found_bodies_witness :
    (deleteByIndex [bikeA] (.int 7)).1 =
      { status := 404, error := some "Bike not found", index := some (.int 7),
        inventoryLength := some 1 } ∧
    (deleteByName [bikeA] "Ghost").1 =
      { status := 404, error := some "Bike not found" } :=
  delete_not_found_bodies [bikeA] 7 "Ghost" (Or.inr (by decide)) (by decide)

/-! ## C4 -/

/-- C4: delete-by-name deletes nothing when no element's name is an exact,
case-sensitive, whole-string match of the decoded segment (404, inventory
unchanged); when position `i` holds the first exact match, it removes and
returns exactly that element; and any element it ever removes and returns
has a name strictly equal to the decoded segment — so a listing named
"BMX Pro" is never the one deleted by a request for "bmx pro". -/
theorem deleteByName_exact_case_sensitive (inv : List Bike) (nm : String) :
    ((∀ b ∈ inv, b.name ≠ some (JVal.str nm)) →
      deleteByName inv nm = ({ status := 404, error := some "Bike not found" }, inv)) ∧
    (∀ i, (h : i < inv.length) → (inv.get ⟨i, h⟩).name = some (JVal.str nm) →
      (∀ j, (hj : j < inv.length) → j < i → (inv.get ⟨j, hj⟩).name ≠ some (JVal.str nm)) →
      deleteByName inv nm =
        ({ status := 200, message := some "Bike deleted successfully",
           bike := some (inv.get ⟨i, h⟩) }, inv.take i ++ inv.drop (i + 1))) ∧
    (∀ b, (deleteByName inv nm).1.bike = some b →
      b.name = some (JVal.str nm) ∧
      (nm = "bmx pro" → b.name ≠ some (JVal.str "BMX Pro"))) := by
  refine ⟨?_, ?_, ?_⟩
  · intro hnone
    have hfind : inv.findIdx? (nameMatches nm) = none := by
      rw [List.findIdx?_eq_none_iff]
      intro b hb
      rw [nameMatches_eq_false_iff]
      exact hnone b hb
    simp [deleteByName, hfind]
  · intro i h hmatch hfirst
    simp only [List.get_eq_getElem] at hmatch hfirst
    have hfind : inv.findIdx? (nameMatches nm) = some i := by
      rw [List.findIdx?_eq_some_iff_getElem]
      refine ⟨h, by simp [nameMatches, hmatch], ?_⟩
      intro j hji
      have hj : j < inv.length := Nat.lt_trans hji h
      have hne := hfirst j hj hji
      simp [nameMatches, hne]
    simp [deleteByName, hfind, List.getElem?_eq_getElem h]
  · intro b hb
    have hname : b.name = some (JVal.str nm) := by
      rcases hfind : inv.findIdx? (nameMatches nm) with _ | i
      · simp [deleteByName, hfind] at hb
      · obtain ⟨hi, hp, -⟩ := List.findIdx?_eq_some_iff_getElem.mp hfind
        have hbike : (deleteByName inv nm).1.bike = inv[i]? := by
          simp [deleteByName, hfind]
        rw [hbike, List.getElem?_eq_getElem hi, Option.some_inj] at hb
        subst hb
        simpa [nameMatches] using hp
    refine ⟨hname, ?_⟩
    intro hnm
    rw [hname, hnm]
    decide

/-- C4 (witness): on an inventory holding exactly one listing, named
"BMX Pro", the request for "bmx pro" matches nothing: 404 and the
inventory unchanged. -/
theorem deleteByName_exact_case_sensitive_witness :
    deleteByName [{ name := some (JVal.str "BMX Pro"), price := some (JVal.num 900),
                    desc := some (JVal.str "bmx"), image := some (JVal.str "/uploads/p.jpg") }]
        "bmx pro" =
      ({ status := 404, error := some "Bike not found" },
       [{ name := some (JVal.str "BMX Pro"), price := some (JVal.num 900),
          desc := some (JVal.str "bmx"), image := some (JVal.str "/uploads/p.jpg") }]) :=
  (deleteByName_exact_case_sensitive _ "bmx pro").1 (by decide)

/-! ## C8 -/

/-- C8 (counterexample): an upload whose content type is `text/plain` is
rejected, but with status 500 (the `fileFilter` `Error` reaches Express's
default error handler, no error middleware being registered) — not a
4xx client error. No file is stored. -/
theorem uploadImage_nonimage_cex :
    (uploadImage (some { mimetype := "text/plain".data, size := 10 })).status = 500 ∧
    ¬(400 ≤ (uploadImage (some { mimetype := "text/plain".data, size := 10 })).status ∧
      (uploadImage (some { mimetype := "text/plain".data, size := 10 })).status < 500) ∧
    (uploadImage (some { mimetype := "text/plain".data, size := 10 })).fileStored = false := by
  decide

/-- C8 (amended): every rejected upload — missing file, non-image content
type, or size above 5 MiB — yields an error status of at least 400 with an
error body, and no file remains in the upload directory; the missing-file
case is the handler's own 400, while the two multer rejections surface as
500 from the default error handler. -/
theorem uploadImage_rejections (file : Option UploadFile)
    (h : file = none ∨
         ∃ f, file = some f ∧ (mimetypeIsImage f = false ∨ fileSizeLimit < f.size)) :
    400 ≤ (uploadImage file).status ∧ (uploadImage file).status ≠ 200 ∧
    (uploadImage file).errorBody.isSome = true ∧
    (uploadImage file).fileStored = false ∧
    ((uploadImage file).status = 400 ↔ file = none) := by
  rcases h with rfl | ⟨f, rfl, hf | hf⟩
  · simp [uploadImage]
  · simp [uploadImage, hf]
  · rcases hmime : mimetypeIsImage f with _ | _
    · simp [uploadImage, hmime]
    · simp [uploadImage, hmime, hf, Nat.not_le.mpr hf]
  
/-- C8 (witness): the amended theorem at the missing-file input. -/
theorem uploadImage_rejections_witness :
    400 ≤ (uploadImage none).status ∧ (uploadImage none).status ≠ 200 ∧
    (uploadImage none).errorBody.isSome = true ∧
    (uploadImage none).fileStored = false ∧
    ((uploadImage none).status = 400 ↔ (none : Option UploadFile) = none) :=
  uploadImage_rejections none (Or.inl rfl)

/-! ## C7: timestamp and base64 lemmas -/

theorem digitChar_isDigit : ∀ n, n < 10 → (digitChar n).isDigit = true := by decide

theorem natChars_isDigit (n : Nat) : ∀ c ∈ natChars n, c.isDigit = true := by
  induction n using Nat.strong_induction_on with
  | _ n ih =>
    rw [natChars]
    split
    · next h =>
      intro c hc
      simp only [List.mem_singleton] at hc
      subst hc
      exact digitChar_isDigit n h
    · next h =>
      intro c hc
      rw [List.mem_append] at hc
      rcases hc with hc | hc
      · exact ih (n / 10) (Nat.div_lt_self (by omega) (by omega)) c hc
      · simp only [List.mem_singleton] at hc
        subst hc
        exact digitChar_isDigit _ (Nat.mod_lt n (by omega))

theorem natChars_length_le : ∀ k n, 0 < k → n < 10 ^ k → (natChars n).length ≤ k := by
  intro k
  induction k with
  | zero => intro n h; omega
  | succ k ih =>
    intro n hpos hlt
    rw [natChars]
    split
    · simp
    · next h =>
      have hk : 0 < k := by
        by_contra hk0
        have hz : k = 0 := by omega
        subst hz
        simp [pow_succ, pow_zero] at hlt
        omega
      have hdiv : n / 10 < 10 ^ k := by
        rw [Nat.div_lt_iff_lt_mul (by omega)]
        calc n < 10 ^ (k + 1) := hlt
          _ = 10 ^ k * 10 := by rw [pow_succ]
      have hlen := ih (n / 10) hk hdiv
      simp only [List.length_append, List.length_singleton]
      omega

theorem padTo_length (w n : Nat) (h : (natChars n).length ≤ w) :
    (padTo w n).length = w := by
  simp [padTo]
  omega

theorem padTo_isDigit (w n : Nat) : ∀ c ∈ padTo w n, c.isDigit = true := by
  intro c hc
  rw [padTo, List.mem_append] at hc
  rcases hc with hc | hc
  · rw [List.eq_of_mem_replicate hc]; decide
  · exact natChars_isDigit n c hc

theorem filter_isDigit_padTo (w n : Nat) :
    (padTo w n).filter Char.isDigit = padTo w n :=
  List.filter_eq_self.mpr (padTo_isDigit w n)

theorem filter_toISOChars (d : DateParts) :
    (toISOChars d).filter Char.isDigit =
      padTo 4 d.year ++ padTo 2 d.month ++ padTo 2 d.day ++
      padTo 2 d.hour ++ padTo 2 d.minute ++ padTo 2 d.second ++ padTo 3 d.ms := by
  have hdash : ['-'].filter Char.isDigit = [] := by decide
  have hcolon : [':'].filter Char.isDigit = [] := by decide
  have ht : ['T'].filter Char.isDigit = [] := by decide
  have hdot : ['.'].filter Char.isDigit = [] := by decide
  have hz : ['Z'].filter Char.isDigit = [] := by decide
  simp only [toISOChars, List.filter_append, hdash, hcolon, ht, hdot, hz,
    filter_isDigit_padTo, List.append_nil, List.nil_append]

theorem mkTimestamp_eq (d : DateParts) (hy : d.year < 10000) (hmo : d.month < 100)
    (hda : d.day < 100) (hho : d.hour < 100) (hmi : d.minute < 100)
    (hse : d.second < 100) :
    mkTimestamp d =
      padTo 4 d.year ++ padTo 2 d.month ++ padTo 2 d.day ++
      padTo 2 d.hour ++ padTo 2 d.minute ++ padTo 2 d.second := by
  have h4 : (10 : Nat) ^ 4 = 10000 := by norm_num
  have h2 : (10 : Nat) ^ 2 = 100 := by norm_num
  have l1 : (padTo 4 d.year).length = 4 :=
    padTo_length _ _ (natChars_length_le 4 _ (by omega) (by rw [h4]; exact hy))
  have l2 : (padTo 2 d.month).length = 2 :=
    padTo_length _ _ (natChars_length_le 2 _ (by omega) (by rw [h2]; exact hmo))
  have l3 : (padTo 2 d.day).length = 2 :=
    padTo_length _ _ (natChars_length_le 2 _ (by omega) (by rw [h2]; exact hda))
  have l4 : (padTo 2 d.hour).length = 2 :=
    padTo_length _ _ (natChars_length_le 2 _ (by omega) (by rw [h2]; exact hho))
  have l5 : (padTo 2 d.minute).length = 2 :=
    padTo_length _ _ (natChars_length_le 2 _ (by omega) (by rw [h2]; exact hmi))
  have l6 : (padTo 2 d.second).length = 2 :=
    padTo_length _ _ (natChars_length_le 2 _ (by omega) (by rw [h2]; exact hse))
  have hlen : (padTo 4 d.year ++ padTo 2 d.month ++ padTo 2 d.day ++
      padTo 2 d.hour ++ padTo 2 d.minute ++ padTo 2 d.second).length = 14 := by
    simp only [List.length_append, l1, l2, l3, l4, l5, l6]
  rw [mkTimestamp, filter_toISOChars, ← hlen, List.take_left]

theorem b64Val_b64Char : ∀ n, n < 64 → b64Val (b64Char n) = n := by decide

theorem b64Char_ne_pad : ∀ n, n < 64 → (b64Char n == '=') = false := by decide

theorem base64Decode_encode (bs : List Nat) :
    (∀ b ∈ bs, b < 256) → base64Decode (base64Encode bs) = bs := by
  induction bs using base64Encode.induct with
  | case1 =>
    intro _
    simp [base64Encode, base64Decode]
  | case2 b1 =>
    intro h
    have hb1 : b1 < 256 := h b1 (by simp)
    have e1 := b64Val_b64Char (b1 / 4) (by omega)
    have e2 := b64Val_b64Char (b1 % 4 * 16) (by omega)
    simp [base64Encode, base64Decode, e1, e2]
    omega
  | case3 b1 b2 =>
    intro h
    have hb1 : b1 < 256 := h b1 (by simp)
    have hb2 : b2 < 256 := h b2 (by simp)
    have e1 := b64Val_b64Char (b1 / 4) (by omega)
    have e2 := b64Val_b64Char (b1 % 4 * 16 + b2 / 16) (by omega)
    have e3 := b64Val_b64Char (b2 % 16 * 4) (by omega)
    have n3 := b64Char_ne_pad (b2 % 16 * 4) (by omega)
    simp [base64Encode, base64Decode, e1, e2, e3, n3]
    omega
  | case4 b1 b2 b3 rest ih =>
    intro h
    have hb1 : b1 < 256 := h b1 (by simp)
    have hb2 : b2 < 256 := h b2 (by simp)
    have hb3 : b3 < 256 := h b3 (by simp)
    have hrest : ∀ b ∈ rest, b < 256 := fun b hb => h b (by simp [hb])
    have e1 := b64Val_b64Char (b1 / 4) (by omega)
    have e2 := b64Val_b64Char (b1 % 4 * 16 + b2 / 16) (by omega)
    have e3 := b64Val_b64Char (b2 % 16 * 4 + b3 / 64) (by omega)
    have e4 := b64Val_b64Char (b3 % 64) (by omega)
    have n3 := b64Char_ne_pad (b2 % 16 * 4 + b3 / 64) (by omega)
    have n4 := b64Char_ne_pad (b3 % 64) (by omega)
    simp [base64Encode, base64Decode, e1, e2, e3, e4, n3, n4, ih hrest]
    omega

theorem isDigit_toNat_lt (c : Char) (h : c.isDigit = true) : c.toNat < 256 := by
  simp only [Char.isDigit, Bool.and_eq_true, decide_eq_true_eq] at h
  obtain ⟨-, h9⟩ := h
  simp only [Char.toNat]
  have hle := UInt32.toNat_le_of_le (n := c.val) (m := 57) (by decide) h9
  omega

theorem strBytes_lt_256 (s : List Char) (h : ∀ c ∈ s, c.toNat < 256) :
    ∀ b ∈ strBytes s, b < 256 := by
  intro b hb
  rw [strBytes, List.mem_map] at hb
  obtain ⟨c, hc, rfl⟩ := hb
  exact h c hc

/-- C7: the payment-initiation step builds a 14-character numeric-only
timestamp of the form YYYYMMDDHHMMSS (the zero-padded year, month, day,
hour, minute and second, in that order); its password decodes — under
base64 — to exactly the byte string `businessShortCode + passkey +
timestamp`; and when the request body carries no amount the outbound
request uses the fixed fallback amount 13000. -/
theorem initiatePayment_spec (body : PayBody) (d : DateParts)
    (hy : d.year < 10000) (hmo : d.month < 100) (hda : d.day < 100)
    (hho : d.hour < 100) (hmi : d.minute < 100) (hse : d.second < 100) :
    (initiatePayment body d).timestamp.length = 14 ∧
    (∀ c ∈ (initiatePayment body d).timestamp, c.isDigit = true) ∧
    (initiatePayment body d).timestamp =
      padTo 4 d.year ++ padTo 2 d.month ++ padTo 2 d.day ++
      padTo 2 d.hour ++ padTo 2 d.minute ++ padTo 2 d.second ∧
    base64Decode (initiatePayment body d).password =
      strBytes (businessShortCode ++ passkey ++ (initiatePayment body d).timestamp) ∧
    (body.amount = none → (initiatePayment body d).amount = JVal.num 13000) := by
  have hts : (initiatePayment body d).timestamp = mkTimestamp d := by
    simp only [initiatePayment]
  have heq := mkTimestamp_eq d hy hmo hda hho hmi hse
  have hdigits : ∀ c ∈ mkTimestamp d, c.isDigit = true := by
    rw [heq]
    intro c hc
    simp only [List.append_assoc, List.mem_append] at hc
    rcases hc with hc | hc | hc | hc | hc | hc <;> exact padTo_isDigit _ _ c hc
  refine ⟨?_, ?_, ?_, ?_, ?_⟩
  · rw [hts, mkTimestamp, ← mkTimestamp]
    rw [heq]
    have h4 : (10 : Nat) ^ 4 = 10000 := by norm_num
    have h2 : (10 : Nat) ^ 2 = 100 := by norm_num
    simp only [List.length_append,
      padTo_length _ _ (natChars_length_le 4 _ (by omega) (by rw [h4]; exact hy)),
      padTo_length _ _ (natChars_length_le 2 _ (by omega) (by rw [h2]; exact hmo)),
      padTo_length _ _ (natChars_length_le 2 _ (by omega) (by rw [h2]; exact hda)),
      padTo_length _ _ (natChars_length_le 2 _ (by omega) (by rw [h2]; exact hho)),
      padTo_length _ _ (natChars_length_le 2 _ (by omega) (by rw [h2]; exact hmi)),
      padTo_length _ _ (natChars_length_le 2 _ (by omega) (by rw [h2]; exact hse))]
  · rw [hts]
    exact hdigits
  · rw [hts, heq]
  · rw [hts]
    have hpw : (initiatePayment body d).password =
        base64Encode (strBytes (businessShortCode ++ passkey ++ mkTimestamp d)) := by
      simp only [initiatePayment]
    rw [hpw]
    apply base64Decode_encode
    apply strBytes_lt_256
    intro c hc
    simp only [List.append_assoc, List.mem_append] at hc
    rcases hc with hc | hc | hc
    · revert c hc
      decide
    · revert c hc
      decide
    · exact isDigit_toNat_lt c (hdigits c hc)
  · intro hnone
    simp [initiatePayment, jsOrAmount, hnone]

/-- C7 (witness): the theorem at a concrete date and a body with no
amount. -/
theorem initiatePayment_spec_witness :
    (initiatePayment { phone := none, amount := none }
        { year := 2026, month := 10, day := 11, hour := 12, minute := 34,
          second := 56, ms := 789 }).timestamp.length = 14 ∧
    (initiatePayment { phone := none, amount := none }
        { year := 2026, month := 10, day := 11, hour := 12, minute := 34,
          second := 56, ms := 789 }).amount = JVal.num 13000 :=
  let t := initiatePayment_spec { phone := none, amount := none }
    { year := 2026, month := 10, day := 11, hour := 12, minute := 34,
      second := 56, ms := 789 }
    (by decide) (by decide) (by decide) (by decide) (by decide) (by decide)
  ⟨t.1, t.2.2.2.2 rfl⟩
